import Mathlib

/-!
Shallow embedding of `src/stepper_motor_control.py` (ltstm-annealing-control).

The Python module drives a Ferrovac STM piezo stepper controller through a
LabJack U3 DAQ.  We embed:

* the wiring-table composition utility `compress_dict` and the concrete
  wiring dictionaries it is applied to (`compile_wiring_dict`);
* the direction bit-pattern table and its compiled form
  (`_compile_motor_directions_dict`);
* the mode read-back `get_motor_setting`;
* the pulse-sequencing operations `_walk`, `walk`, `walk_steps`,
  `walk_bursts` as trace-producing functions (each DAQ interaction becomes
  an event; time.sleep becomes a `sleep` event with a rational duration);
* the advanced-controller operations `turn_around`, `turn_around_from`,
  `conv_one_step` with their configuration tables.

Python dictionaries are modelled as insertion-ordered association lists with
first-match lookup (genuine dicts have unique keys).  Python exceptions are
modelled by the `PyErr` inductive; each constructor corresponds to one raise
site in the source and carries the data the source interpolates into the
message.  Machine floats in the configuration (e.g. `450./205.`, `0.15`)
are modelled as the exact rationals written in the source.
-/

namespace StepperMotor

/-- Values stored in the wiring dictionaries of the source: strings
(labels, colors), integers (pin numbers), and Python `None`
(`U3_PIN_CONFIG['GND'] = None`). -/
inductive PyVal where
  | s (str : String)
  | n (int : Int)
  | none_
deriving DecidableEq, Repr

/-- A Python dictionary, as an insertion-ordered association list. -/
abbrev PyDict := List (PyVal × PyVal)

/-- An argument passed to `compress_dict`: either a dict or some other
Python value (the source type-checks each argument with
`type(arg) != dict`). -/
inductive PyObj where
  | dict (entries : PyDict)
  | val (v : PyVal)
deriving DecidableEq, Repr

/-- Inputs accepted by `_convert_n_steps_to_int`, mirroring what Python
`int()` does on them: an `int` is returned unchanged, a string holding an
integer literal parses, any other string raises `ValueError`. -/
inductive StepInput where
  | intVal (i : Int)
  | strIntVal (i : Int)
  | strBad (str : String)
deriving DecidableEq, Repr

/-- The exceptions the module can raise.  One constructor per raise site;
each carries the data the source formats into the message.
`invalidDirection`, `invalidStepCount` and `modeMismatch` are all
`StepperMotorException` in the source, `invalidDirChange` is
`AdvancedStepperMotorException`, `valueErrorNotDict`, `invalidConvTo` are
`ValueError`, `keyErrorMsg` is `KeyError`, and `pyKeyError` is the plain
`KeyError` a Python dict lookup raises on a missing key. -/
inductive PyErr where
  | valueErrorNotDict (arg : PyObj)
  | keyErrorMsg (msg : String)
  | indexError
  | invalidDirection (direction : String) (valid : List String)
  | invalidStepCount (given : StepInput)
  | modeMismatch (msg : String)
  | invalidDirChange (key : String) (valid : List String)
  | invalidConvTo (key : String) (valid : List String)
  | pyKeyError (key : String)
deriving DecidableEq, Repr

/-- Python dict lookup (`d[k]` resolved to `Option`): first entry whose key
matches. -/
def dictLookup (d : PyDict) (k : PyVal) : Option PyVal :=
  (d.find? (fun p => p.1 == k)).map (fun p => p.2)

/-- Lookup in a string-keyed configuration table. -/
def alookup {α : Type} (d : List (String × α)) (k : String) : Option α :=
  (d.find? (fun p => p.1 == k)).map (fun p => p.2)

-- ===========================================================================
-- compress_dict
-- ===========================================================================

/-- `type(arg) == dict`. -/
def isDict : PyObj → Bool
  | .dict _ => true
  | .val _ => false

/-- Entries of a `PyObj` known to be a dict (unreachable default for
non-dicts, which `compress_dict` rejects before using this). -/
def asDict : PyObj → PyDict
  | .dict entries => entries
  | .val _ => []

/-- The fixed message of the `KeyError` raised by `compress_dict`. -/
def chainMsg : String :=
  "Values and keys of subsequent dictionaries are not consistent."

/-- `all(val in tmp_.keys() for val in dct.values())`. -/
def chainConsistent (dct tmp : PyDict) : Bool :=
  dct.all (fun p => (dictLookup tmp p.2).isSome)

/-- `{k: tmp_[v] for (k,v) in dct.items()}`.  The `getD` default is never
reached when `chainConsistent dct tmp` holds, matching the guarded
comprehension in the source. -/
def compressStep (dct tmp : PyDict) : PyDict :=
  dct.map (fun p => (p.1, (dictLookup tmp p.2).getD PyVal.none_))

/-- The `while len(dct_lst) > 0` loop of `compress_dict`. -/
def compressLoop : PyDict → List PyDict → Except PyErr PyDict
  | dct, [] => .ok dct
  | dct, tmp :: rest =>
    if chainConsistent dct tmp then compressLoop (compressStep dct tmp) rest
    else .error (.keyErrorMsg chainMsg)

/-- `compress_dict(*args)`: reject the first non-dict argument with
`ValueError`, then fold the chain, raising `KeyError` at the first
inconsistent link.  An empty argument list hits `dct_lst.pop(0)` on an
empty list (`IndexError`). -/
def compress_dict (args : List PyObj) : Except PyErr PyDict :=
  match args.find? (fun a => ! isDict a) with
  | some a => .error (.valueErrorNotDict a)
  | none =>
    match args with
    | [] => .error .indexError
    | d0 :: rest => compressLoop (asDict d0) (rest.map asDict)

/-- Chasing one value through the remaining dictionaries of a chain. -/
def chainLookup : PyVal → List PyDict → Option PyVal
  | v, [] => some v
  | v, d :: rest =>
    match dictLookup d v with
    | some w => chainLookup w rest
    | none => none

/-- The spec invariant on a wiring chain: every value of mapping *i* occurs
as a key of mapping *i+1*. -/
def chainPairwise : List PyDict → Bool
  | [] => true
  | [_] => true
  | a :: b :: rest => chainConsistent a b && chainPairwise (b :: rest)

-- ===========================================================================
-- wiring configuration
-- ===========================================================================

/-- `U3_PIN_CONFIG`: U3 terminal label to internal terminal numbering. -/
def U3_PIN_CONFIG : PyDict :=
  [(.s "FIO0", .n 0), (.s "FIO1", .n 1), (.s "FIO2", .n 2), (.s "FIO3", .n 3),
   (.s "FIO4", .n 4), (.s "FIO5", .n 5), (.s "FIO6", .n 6), (.s "FIO7", .n 7),
   (.s "GND", .none_)]

/-- `U3_WIRING`: DSUB9 cable color to U3 terminal label. -/
def U3_WIRING : PyDict :=
  [(.s "brown", .s "FIO0"), (.s "red", .s "FIO1"), (.s "orange", .s "FIO2"),
   (.s "blue", .s "FIO5"), (.s "violet", .s "FIO6"), (.s "green", .s "FIO7"),
   (.s "black", .s "GND"), (.s "yellow", .s "n.c.")]

/-- `DSUB9_PIN_CONFIG`: DSUB9 pin number to cable color. -/
def DSUB9_PIN_CONFIG : PyDict :=
  [(.n 1, .s "black"), (.n 2, .s "brown"), (.n 3, .s "red"), (.n 4, .s "orange"),
   (.n 5, .s "n.c."), (.n 6, .s "yellow"), (.n 7, .s "blue"), (.n 8, .s "violet"),
   (.n 9, .s "green")]

/-- `CONTROLLER_PIN_CONFIG`: controller function to DSUB9 output pin. -/
def CONTROLLER_PIN_CONFIG : PyDict :=
  [(.s "GND", .n 1), (.s "bit0", .n 2), (.s "bit1", .n 3), (.s "bit2", .n 4),
   (.s "LED_burst", .n 7), (.s "LED_single", .n 8), (.s "LED_cont", .n 9)]

/-- `compile_wiring_dict()`. -/
def compile_wiring_dict : Except PyErr PyDict :=
  compress_dict
    [.dict CONTROLLER_PIN_CONFIG, .dict DSUB9_PIN_CONFIG,
     .dict U3_WIRING, .dict U3_PIN_CONFIG]

/-- `self.pin_dct`, the composed wiring dictionary (the composition
succeeds on the shipped configuration; the default branch is dead). -/
def pin_dct : PyDict :=
  match compile_wiring_dict with
  | .ok d => d
  | .error _ => []

-- ===========================================================================
-- StepperMotorControl: direction table, mode read-back
-- ===========================================================================

/-- `StepperMotorControl.MOTOR_DIRECTIONS`. -/
def MOTOR_DIRECTIONS : List (String × List Nat) :=
  [("left", [1, 0, 1]), ("right", [1, 1, 0]), ("back", [0, 1, 0]),
   ("down", [1, 0, 0]), ("fwd", [0, 0, 1]), ("up", [0, 1, 1]),
   ("stop", [1, 1, 1])]

/-- `StepperMotorControl.BIT_LIST`. -/
def BIT_LIST : List String := ["bit0", "bit1", "bit2"]

/-- `StepperMotorControl.MOVEMENT_SETTINGS`. -/
def MOVEMENT_SETTINGS : List String := ["LED_cont", "LED_burst", "LED_single"]

/-- `StepperMotorControl.BURST_PULSE_DURATION = 0.15`. -/
def BURST_PULSE_DURATION : ℚ := 15/100

/-- `self.mot_dir = self._compile_motor_directions_dict()`: each direction
mapped to `dict(zip(BIT_LIST, bit_vector))`. -/
def mot_dir : List (String × List (String × Nat)) :=
  MOTOR_DIRECTIONS.map (fun p => (p.1, BIT_LIST.zip p.2))

/-- `s.replace('LED_', '')` on the character list: drop every
(non-overlapping, left-to-right) occurrence of `LED_`. -/
def removeLEDMarker : List Char → List Char
  | 'L' :: 'E' :: 'D' :: '_' :: rest => removeLEDMarker rest
  | c :: rest => c :: removeLEDMarker rest
  | [] => []

/-- `s.replace('LED_', '')`. -/
def stripLED (s : String) : String := String.mk (removeLEDMarker s.data)

/-- `get_motor_setting()`: scan the three status lines in order, reading
the DAQ input state of each (`dioState` is the `getDIOState` read-back,
fixed for the duration of one call); every line read as `0` overwrites
`setting`, so the last low line wins; if no line is low the initial
`'auto'` survives.  The `none` branch of the pin lookup is dead: all three
LED keys are in `pin_dct`. -/
def get_motor_setting (dioState : PyVal → Nat) : String :=
  MOVEMENT_SETTINGS.foldl
    (fun setting s =>
      match dictLookup pin_dct (PyVal.s s) with
      | some chNum => if dioState chNum = 0 then stripLED s else setting
      | none => setting)
    "auto"

/-- Modelled from the spec (for comparison with `get_motor_setting`, not
from the source): "the first line found in logical-low state determines
the reported mode", scanning continuous, burst, single; the channel
numbers are the `pin_dct` entries for the three LED lines. -/
def firstLowMode (dioState : PyVal → Nat) : String :=
  if dioState (PyVal.n 7) = 0 then "cont"
  else if dioState (PyVal.n 5) = 0 then "burst"
  else if dioState (PyVal.n 6) = 0 then "single"
  else "auto"

-- ===========================================================================
-- pulse sequencing as traces
-- ===========================================================================

/-- One observable DAQ interaction: a batched digital write
(`self.d.getFeedback(*command_lst)`, one entry per `u3.BitStateWrite`)
or a `time.sleep` with its duration in seconds. -/
inductive Ev where
  | batchWrite (commands : List (PyVal × Nat))
  | sleep (seconds : ℚ)
deriving DecidableEq, Repr

abbrev Trace := List Ev

/-- Sequencing in the exception-plus-trace model: run `r`; if it raised,
propagate its error keeping the events it already emitted; otherwise append
the continuation's events. -/
def pseq (r : Trace × Option PyErr) (f : Unit → Trace × Option PyErr) :
    Trace × Option PyErr :=
  match r with
  | (tr, none) => (tr ++ (f ()).1, (f ()).2)
  | (tr, some e) => (tr, some e)

/-- `_check_motor_direction(direction)`: raise `StepperMotorException`
listing `self.mot_dir.keys()` when the direction is unknown. -/
def check_motor_direction (direction : String) : Option PyErr :=
  if (alookup mot_dir direction).isSome then none
  else some (.invalidDirection direction (mot_dir.map Prod.fst))

/-- The command list `_walk` builds from a bit pattern:
`u3.BitStateWrite(self.pin_dct[bit], state)` per bit.  The `getD` default
is dead: every `BIT_LIST` entry is a key of `pin_dct`. -/
def commandList (bp : List (String × Nat)) : List (PyVal × Nat) :=
  bp.map (fun b => ((dictLookup pin_dct (PyVal.s b.1)).getD PyVal.none_, b.2))

/-- `_walk(direction)`: validate the direction, then issue the bit pattern
as one batched write.  The final `none` branch is dead (the check already
ensured the lookup succeeds). -/
def walkOne (direction : String) : Trace × Option PyErr :=
  match check_motor_direction direction with
  | some e => ([], some e)
  | none =>
    match alookup mot_dir direction with
    | some bp => ([Ev.batchWrite (commandList bp)], none)
    | none => ([], none)

/-- `walk(direction, duration)`: `_walk('stop')`, `_walk(direction)`,
sleep `duration*0.5`, `_walk('stop')`, sleep `duration*0.5`. -/
def walk (direction : String) (duration : ℚ) : Trace × Option PyErr :=
  pseq (walkOne "stop") fun _ =>
  pseq (walkOne direction) fun _ =>
  pseq ([Ev.sleep (duration * (1/2))], none) fun _ =>
  pseq (walkOne "stop") fun _ =>
  ([Ev.sleep (duration * (1/2))], none)

/-- Python `int(x)` restricted to the modelled inputs; `.error ()` is the
`ValueError` that `_convert_n_steps_to_int` catches. -/
def pyInt : StepInput → Except Unit Int
  | .intVal i => .ok i
  | .strIntVal i => .ok i
  | .strBad _ => .error ()

/-- `_convert_n_steps_to_int(n_steps)`. -/
def convert_n_steps_to_int (n_steps : StepInput) : Except PyErr Int :=
  match pyInt n_steps with
  | .ok i => .ok i
  | .error _ => .error (.invalidStepCount n_steps)

/-- `for i in range(n_steps): self.walk(...); time.sleep(0.01)`. -/
def walkLoop (direction : String) (duration : ℚ) : Nat → Trace × Option PyErr
  | 0 => ([], none)
  | n + 1 =>
    pseq (walk direction duration) fun _ =>
    pseq ([Ev.sleep (1/100)], none) fun _ =>
    walkLoop direction duration n

/-- The (exact, triple-quoted) message of the mode check in `walk_steps`. -/
def singleModeMsg : String := "Need to switch motor control setting to single. "

/-- The message of the mode check in `walk_bursts`. -/
def burstModeMsg : String := "Need to switch motor control setting to burst. "

/-- `walk_steps(direction, n_steps, duration_per_step)`: convert the step
count, require the controller mode read back to be `'single'`, then loop.
`range(n)` of a negative `int` is empty, hence `Int.toNat`. -/
def walk_steps (dioState : PyVal → Nat) (direction : String)
    (n_steps : StepInput) (duration_per_step : ℚ) : Trace × Option PyErr :=
  match convert_n_steps_to_int n_steps with
  | .error e => ([], some e)
  | .ok n =>
    if get_motor_setting dioState ≠ "single" then
      ([], some (.modeMismatch singleModeMsg))
    else walkLoop direction duration_per_step n.toNat

/-- `walk_bursts(direction, n_steps)`: as `walk_steps` but requiring mode
`'burst'` and using the fixed `BURST_PULSE_DURATION`. -/
def walk_bursts (dioState : PyVal → Nat) (direction : String)
    (n_steps : StepInput) : Trace × Option PyErr :=
  match convert_n_steps_to_int n_steps with
  | .error e => ([], some e)
  | .ok n =>
    if get_motor_setting dioState ≠ "burst" then
      ([], some (.modeMismatch burstModeMsg))
    else walkLoop direction BURST_PULSE_DURATION n.toNat

/-- The spec's `encode(direction)`: the per-direction entry of the table
built by `_compile_motor_directions_dict`, guarded by
`_check_motor_direction` (the guarded lookup every consumer of `mot_dir`
performs, e.g. `_walk`).  The final branch is dead. -/
def encode (direction : String) : Except PyErr (List (String × Nat)) :=
  match check_motor_direction direction with
  | some e => .error e
  | none =>
    match alookup mot_dir direction with
    | some bp => .ok bp
    | none => .ok []

-- ===========================================================================
-- AdvancedStepperMotorControl
-- ===========================================================================

/-- `TURN_AROUND_STEP_SEQUENCE`. -/
def TURN_AROUND_STEP_SEQUENCE : List (String × List (String × Int)) :=
  [("fwd_to_back", [("fwd", 100), ("back", 55)]),
   ("back_to_fwd", [("back", 50), ("fwd", 110)])]

/-- `RATIO_RIGHT_TO_LEFT = 87./78.` (modelled as the exact rational). -/
def RATIO_RIGHT_TO_LEFT : ℚ := 87/78

/-- `RATIO_BACK_TO_FWD = 450./205.` (modelled as the exact rational). -/
def RATIO_BACK_TO_FWD : ℚ := 450/205

/-- `CONV_TO` (note: the source maps `'back'` to `1./RATIO_RIGHT_TO_LEFT`,
configuration data taken as-is). -/
def CONV_TO : List (String × ℚ) :=
  [("left", RATIO_RIGHT_TO_LEFT), ("right", 1/RATIO_RIGHT_TO_LEFT),
   ("fwd", RATIO_BACK_TO_FWD), ("back", 1/RATIO_RIGHT_TO_LEFT)]

/-- `TURN_AROUND_FROM`. -/
def TURN_AROUND_FROM : List (String × String) :=
  [("left", "left_to_right"), ("right", "right_to_left"),
   ("fwd", "fwd_to_back"), ("back", "back_to_fwd")]

/-- `_check_direction_change(dir_change)`: raise
`AdvancedStepperMotorException` listing `self.turn_dct.keys()` when the
key is unknown. -/
def check_direction_change (dir_change : String) : Option PyErr :=
  if (alookup TURN_AROUND_STEP_SEQUENCE dir_change).isSome then none
  else some (.invalidDirChange dir_change (TURN_AROUND_STEP_SEQUENCE.map Prod.fst))

/-- `for step_sequ in self.turn_dct.get(dir_change): self.walk_bursts(*step_sequ)`. -/
def runTurnSeq (dioState : PyVal → Nat) :
    List (String × Int) → Trace × Option PyErr
  | [] => ([], none)
  | (d, cnt) :: rest =>
    pseq (walk_bursts dioState d (.intVal cnt)) fun _ =>
    runTurnSeq dioState rest

/-- `turn_around(dir_change)`. -/
def turn_around (dioState : PyVal → Nat) (dir_change : String) :
    Trace × Option PyErr :=
  match check_direction_change dir_change with
  | some e => ([], some e)
  | none =>
    runTurnSeq dioState ((alookup TURN_AROUND_STEP_SEQUENCE dir_change).getD [])

/-- `turn_around_from(direction)`: validate the motor direction, then look
`TURN_AROUND_FROM[direction]` up — an unguarded Python dict subscript, so a
missing key raises a plain `KeyError`. -/
def turn_around_from (dioState : PyVal → Nat) (direction : String) :
    Trace × Option PyErr :=
  match check_motor_direction direction with
  | some e => ([], some e)
  | none =>
    match alookup TURN_AROUND_FROM direction with
    | none => ([], some (.pyKeyError direction))
    | some dir_change => turn_around dioState dir_change

/-- Python `int()` applied to a float/rational: truncation toward zero. -/
def ratTrunc (q : ℚ) : Int := if 0 ≤ q then ⌊q⌋ else -⌊-q⌋

/-- `conv_one_step(conv_to, step_nr)`: membership check against
`CONV_TO.keys()` (raising `ValueError` listing them), then
`int(step_nr * ratio)`. -/
def conv_one_step (conv_to : String) (step_nr : Int) : Except PyErr Int :=
  match alookup CONV_TO conv_to with
  | none => .error (.invalidConvTo conv_to (CONV_TO.map Prod.fst))
  | some r => .ok (ratTrunc (step_nr * r))

-- ===========================================================================
-- derived notions used in the statements
-- ===========================================================================

/-- The batched command list `_walk('stop')` issues (the all-ones stop
pattern routed through `pin_dct`). -/
def stopCmds : List (PyVal × Nat) :=
  commandList [("bit0", 1), ("bit1", 1), ("bit2", 1)]

/-- The full event sequence of one successful `walk(direction, d)` whose
direction encodes to `bp`: stop write, direction write, half-duration
hold, stop write, half-duration hold. -/
def pulseTrace (bp : List (String × Nat)) (d : ℚ) : Trace :=
  [Ev.batchWrite stopCmds, Ev.batchWrite (commandList bp),
   Ev.sleep (d * (1/2)), Ev.batchWrite stopCmds, Ev.sleep (d * (1/2))]

/-- `self.mot_dir.keys()`, as interpolated into the invalid-direction
message. -/
def motorKeys : List String := mot_dir.map Prod.fst

/-- A status-line read-back with only the `single` indicator
(channel 6 = `pin_dct['LED_single']`) in logical-low state. -/
def dioSingle : PyVal → Nat := fun ch => if ch = PyVal.n 6 then 0 else 1

/-- A status-line read-back with only the `burst` indicator
(channel 5 = `pin_dct['LED_burst']`) in logical-low state. -/
def dioBurst : PyVal → Nat := fun ch => if ch = PyVal.n 5 then 0 else 1

-- ===========================================================================
-- supporting lemmas
-- ===========================================================================

lemma pseq_ok (tr : Trace) (f : Unit → Trace × Option PyErr) :
    pseq (tr, none) f = (tr ++ (f ()).1, (f ()).2) := rfl

lemma pseq_err (tr : Trace) (e : PyErr) (f : Unit → Trace × Option PyErr) :
    pseq (tr, some e) f = (tr, some e) := rfl

lemma walkOne_stop : walkOne "stop" = ([Ev.batchWrite stopCmds], none) := rfl

lemma walkOne_ok {direction : String} {bp : List (String × Nat)}
    (h : alookup mot_dir direction = some bp) :
    walkOne direction = ([Ev.batchWrite (commandList bp)], none) := by
  unfold walkOne check_motor_direction
  rw [h]
  rfl

lemma walkOne_err {direction : String} (h : alookup mot_dir direction = none) :
    walkOne direction = ([], some (.invalidDirection direction motorKeys)) := by
  unfold walkOne check_motor_direction motorKeys
  rw [h]
  rfl

lemma walk_ok {direction : String} {bp : List (String × Nat)}
    (h : alookup mot_dir direction = some bp) (d : ℚ) :
    walk direction d = (pulseTrace bp d, none) := by
  unfold walk
  simp only [walkOne_stop, walkOne_ok h, pseq]
  simp [pulseTrace]

lemma walk_err {direction : String} (h : alookup mot_dir direction = none) (d : ℚ) :
    walk direction d
      = ([Ev.batchWrite stopCmds], some (.invalidDirection direction motorKeys)) := by
  unfold walk
  simp only [walkOne_stop, walkOne_err h, pseq]
  simp

lemma walkLoop_ok {direction : String} {bp : List (String × Nat)}
    (h : alookup mot_dir direction = some bp) (d : ℚ) :
    ∀ n : Nat, walkLoop direction d n
      = ((List.replicate n (pulseTrace bp d ++ [Ev.sleep (1/100)])).flatten, none) := by
  intro n
  induction n with
  | zero => rfl
  | succ k ih =>
    rw [walkLoop]
    simp only [walk_ok h d, pseq, ih]
    simp [List.replicate_succ]

lemma walkLoop_snd (direction : String) (d : ℚ) (n : Nat) :
    (walkLoop direction d n).2 = none ∨
      (walkLoop direction d n).2 = some (.invalidDirection direction motorKeys) := by
  cases h : alookup mot_dir direction with
  | some bp => rw [walkLoop_ok h d n]; exact .inl rfl
  | none =>
    cases n with
    | zero => exact .inl rfl
    | succ k =>
      rw [walkLoop]
      simp [walk_err h d, pseq]

lemma walk_bursts_ok {dioState : PyVal → Nat} {direction : String}
    {bp : List (String × Nat)} (hdir : alookup mot_dir direction = some bp)
    (hmode : get_motor_setting dioState = "burst") (i : Int) :
    walk_bursts dioState direction (.intVal i)
      = ((List.replicate i.toNat
            (pulseTrace bp BURST_PULSE_DURATION ++ [Ev.sleep (1/100)])).flatten,
         none) := by
  unfold walk_bursts convert_n_steps_to_int pyInt
  simp [hmode, walkLoop_ok hdir]

lemma walk_steps_conv_ok {inp : StepInput} {i : Int} (hi : pyInt inp = .ok i)
    (dioState : PyVal → Nat) (direction : String) (d : ℚ) :
    walk_steps dioState direction inp d
      = if get_motor_setting dioState ≠ "single"
        then ([], some (.modeMismatch singleModeMsg))
        else walkLoop direction d i.toNat := by
  unfold walk_steps convert_n_steps_to_int
  rw [hi]

lemma walk_steps_conv_err {inp : StepInput} (hi : pyInt inp = .error ())
    (dioState : PyVal → Nat) (direction : String) (d : ℚ) :
    walk_steps dioState direction inp d = ([], some (.invalidStepCount inp)) := by
  unfold walk_steps convert_n_steps_to_int
  rw [hi]

lemma walk_bursts_conv_ok {inp : StepInput} {i : Int} (hi : pyInt inp = .ok i)
    (dioState : PyVal → Nat) (direction : String) :
    walk_bursts dioState direction inp
      = if get_motor_setting dioState ≠ "burst"
        then ([], some (.modeMismatch burstModeMsg))
        else walkLoop direction BURST_PULSE_DURATION i.toNat := by
  unfold walk_bursts convert_n_steps_to_int
  rw [hi]

lemma walk_bursts_conv_err {inp : StepInput} (hi : pyInt inp = .error ())
    (dioState : PyVal → Nat) (direction : String) :
    walk_bursts dioState direction inp = ([], some (.invalidStepCount inp)) := by
  unfold walk_bursts convert_n_steps_to_int
  rw [hi]

lemma runTurnSeq_two {dioState : PyVal → Nat} {d1 d2 : String} {c1 c2 : Int}
    {t1 t2 : Trace}
    (h1 : walk_bursts dioState d1 (.intVal c1) = (t1, none))
    (h2 : walk_bursts dioState d2 (.intVal c2) = (t2, none)) :
    runTurnSeq dioState [(d1, c1), (d2, c2)] = (t1 ++ t2, none) := by
  simp only [runTurnSeq, h1, h2, pseq]
  simp

lemma dictLookup_mem_values {d : PyDict} {v w : PyVal}
    (h : dictLookup d v = some w) : w ∈ d.map Prod.snd := by
  unfold dictLookup at h
  obtain ⟨p, hf, hw⟩ := Option.map_eq_some'.mp h
  subst hw
  exact List.mem_map_of_mem _ (List.mem_of_find?_eq_some hf)

lemma chainLookup_cons_some {v w : PyVal} {tmp : PyDict} {rest : List PyDict}
    (h : dictLookup tmp v = some w) :
    chainLookup v (tmp :: rest) = chainLookup w rest := by
  rw [chainLookup, h]

lemma chainLookup_cons_isSome {v : PyVal} {tmp : PyDict} {rest : List PyDict}
    (h : (chainLookup v (tmp :: rest)).isSome) :
    ∃ w, dictLookup tmp v = some w := by
  cases hl : dictLookup tmp v with
  | some w => exact ⟨w, rfl⟩
  | none => rw [chainLookup, hl] at h; simp at h

lemma chainPairwise_total {rest : List PyDict} :
    ∀ {a : PyDict}, chainPairwise (a :: rest) = true →
      ∀ v ∈ a.map Prod.snd, (chainLookup v rest).isSome := by
  induction rest with
  | nil =>
    intro a _ v _
    rfl
  | cons b rest ih =>
    intro a hchain v hv
    have hsplit : chainConsistent a b = true ∧ chainPairwise (b :: rest) = true := by
      simpa [chainPairwise] using hchain
    obtain ⟨p, hp, hpv⟩ := List.mem_map.mp hv
    have hsome : (dictLookup b v).isSome := by
      have := List.all_eq_true.mp hsplit.1 p hp
      simpa [hpv] using this
    obtain ⟨w, hw⟩ := Option.isSome_iff_exists.mp hsome
    rw [chainLookup_cons_some hw]
    exact ih hsplit.2 w (dictLookup_mem_values hw)

lemma compressLoop_total (rest : List PyDict) :
    ∀ dct : PyDict, (∀ v ∈ dct.map Prod.snd, (chainLookup v rest).isSome) →
      compressLoop dct rest
        = .ok (dct.map (fun p => (p.1, (chainLookup p.2 rest).getD PyVal.none_))) := by
  induction rest with
  | nil =>
    intro dct _
    simp [compressLoop, chainLookup]
  | cons tmp rest ih =>
    intro dct h
    have hcons : chainConsistent dct tmp = true := by
      apply List.all_eq_true.mpr
      intro p hp
      obtain ⟨w, hw⟩ :=
        chainLookup_cons_isSome (h p.2 (List.mem_map_of_mem _ hp))
      simp [hw]
    have hnext : ∀ v ∈ (compressStep dct tmp).map Prod.snd,
        (chainLookup v rest).isSome := by
      intro v hv
      obtain ⟨q, hq, hqv⟩ := List.mem_map.mp hv
      obtain ⟨p, hp, hpq⟩ := List.mem_map.mp hq
      have hsrc := h p.2 (List.mem_map_of_mem _ hp)
      obtain ⟨w, hw⟩ := chainLookup_cons_isSome hsrc
      rw [chainLookup_cons_some hw] at hsrc
      have : v = w := by
        rw [← hqv, ← hpq]
        simp [hw]
      rwa [this]
    rw [compressLoop, if_pos hcons, ih (compressStep dct tmp) hnext]
    congr 1
    unfold compressStep
    rw [List.map_map]
    apply List.map_congr_left
    intro p hp
    obtain ⟨w, hw⟩ := chainLookup_cons_isSome (h p.2 (List.mem_map_of_mem _ hp))
    simp [Function.comp, hw, chainLookup_cons_some hw]

lemma compressLoop_kinds (rest : List PyDict) :
    ∀ dct : PyDict, (∃ m, compressLoop dct rest = .ok m) ∨
      compressLoop dct rest = .error (.keyErrorMsg chainMsg) := by
  induction rest with
  | nil => intro dct; exact .inl ⟨dct, rfl⟩
  | cons tmp rest ih =>
    intro dct
    rw [compressLoop]
    by_cases hc : chainConsistent dct tmp = true
    · rw [if_pos hc]; exact ih _
    · rw [if_neg hc]; exact .inr rfl

lemma forall₂_map_self {α β : Type} (rel : α → β → Prop) (f : α → β) :
    ∀ l : List α, (∀ p ∈ l, rel p (f p)) → List.Forall₂ rel l (l.map f) := by
  intro l
  induction l with
  | nil => intro; simp
  | cons a l ih =>
    intro h
    rw [List.map_cons]
    exact List.Forall₂.cons (h a (List.mem_cons_self a l))
      (ih fun p hp => h p (List.mem_cons_of_mem a hp))

-- ===========================================================================
-- claim theorems
-- ===========================================================================

/-- C1: for every chain of two or more dict mappings in which every value
of mapping *i* occurs as a key of mapping *i+1*, `compress_dict` returns
the single mapping from the first mapping's keys (in order) directly to
the values obtained by chaining the lookups through the remaining
mappings; in particular composing `{'1':'A'}`, `{'A':'B'}`, `{'B':'C'}`
gives `{'1':'C'}`. -/
theorem compress_dict_chains (d1 : PyDict) (rest : List PyDict)
    (hlen : rest ≠ [])
    (hkeys : ∀ d ∈ d1 :: rest, (d.map Prod.fst).Nodup)
    (hchain : chainPairwise (d1 :: rest) = true) :
    (∃ m, compress_dict ((d1 :: rest).map PyObj.dict) = .ok m ∧
        List.Forall₂ (fun p q => p.1 = q.1 ∧ chainLookup p.2 rest = some q.2) d1 m) ∧
    compress_dict [PyObj.dict [(.s "1", .s "A")], PyObj.dict [(.s "A", .s "B")],
        PyObj.dict [(.s "B", .s "C")]] = .ok [(.s "1", .s "C")] := by
  refine ⟨?_, rfl⟩
  have htot := chainPairwise_total hchain
  refine ⟨d1.map (fun p => (p.1, (chainLookup p.2 rest).getD PyVal.none_)), ?_, ?_⟩
  · have hfind : ((d1 :: rest).map PyObj.dict).find? (fun a => ! isDict a) = none := by
      apply List.find?_eq_none.mpr
      intro x hx
      obtain ⟨d, _, hdx⟩ := List.mem_map.mp hx
      simp [← hdx, isDict]
    unfold compress_dict
    rw [hfind]
    simp only [List.map_cons]
    have hid : (rest.map PyObj.dict).map asDict = rest := by
      rw [List.map_map]
      simp [Function.comp_def, asDict]
    show compressLoop (asDict (PyObj.dict d1)) ((rest.map PyObj.dict).map asDict) = _
    rw [hid]
    exact compressLoop_total rest d1 htot
  · apply forall₂_map_self
    intro p hp
    refine ⟨rfl, ?_⟩
    have := htot p.2 (List.mem_map_of_mem _ hp)
    cases hl : chainLookup p.2 rest with
    | some w => simp [hl]
    | none => rw [hl] at this; simp at this

/-- C1 witness: the general part of `compress_dict_chains` instantiated
at the three-dictionary example chain, all hypotheses discharged by
evaluation. -/
theorem compress_dict_chains_witness :
    compress_dict [PyObj.dict [(.s "1", .s "A")], PyObj.dict [(.s "A", .s "B")],
        PyObj.dict [(.s "B", .s "C")]] = .ok [(.s "1", .s "C")] :=
  (compress_dict_chains [(.s "1", .s "A")]
      [[(.s "A", .s "B")], [(.s "B", .s "C")]]
      (by decide) (by decide) (by decide)).2

/-- C2: with a valid direction, a step count `n` and a positive duration,
`walk_steps` run while the controller reports `'single'` emits exactly `n`
stop–direction–stop pulse sequences, each followed by the fixed 0.01 s
inter-step delay; with any other reported mode it raises the
mode-mismatch `StepperMotorException` with an empty trace, i.e. before
issuing a single digital write. -/
theorem walk_steps_mode_gate (dioState : PyVal → Nat) (direction : String)
    (bp : List (String × Nat)) (n : Nat) (d : ℚ)
    (hdir : alookup mot_dir direction = some bp) (hd : 0 < d) :
    (get_motor_setting dioState = "single" →
        walk_steps dioState direction (.intVal n) d
          = ((List.replicate n (pulseTrace bp d ++ [Ev.sleep (1/100)])).flatten,
             none)) ∧
    (get_motor_setting dioState ≠ "single" →
        walk_steps dioState direction (.intVal n) d
          = ([], some (.modeMismatch singleModeMsg))) := by
  constructor
  · intro hmode
    unfold walk_steps convert_n_steps_to_int pyInt
    simp [hmode, walkLoop_ok hdir]
  · intro hmode
    unfold walk_steps convert_n_steps_to_int pyInt
    simp [hmode]

/-- C2 witness: two steps forward at 0.01 s with only the single-mode
status line low. -/
theorem walk_steps_mode_gate_witness :
    walk_steps dioSingle "fwd" (.intVal 2) (1/100)
      = ((List.replicate 2
            (pulseTrace [("bit0", 0), ("bit1", 0), ("bit2", 1)] (1/100)
              ++ [Ev.sleep (1/100)])).flatten, none) :=
  (walk_steps_mode_gate dioSingle "fwd" [("bit0", 0), ("bit1", 0), ("bit2", 1)]
      2 (1/100) rfl (by norm_num)).1 rfl

/-- C3 counterexample: with all three status lines low, the first line in
scan order (continuous) is low, so the claim predicts `'cont'` (the
spec-modelled `firstLowMode`), but `get_motor_setting` reports
`'single'` — the last low line wins, not the first. -/
theorem get_motor_setting_all_low :
    get_motor_setting (fun _ => 0) = "single" ∧
      firstLowMode (fun _ => 0) = "cont" :=
  ⟨rfl, rfl⟩

/-- C3 (amended): `get_motor_setting` reports the mode of the LAST status
line found in logical-low state, scanning continuous (channel 7), burst
(channel 5), single (channel 6) — equivalently, priority single over
burst over cont — and reports `'auto'` when no line is low. -/
theorem get_motor_setting_last_low (dioState : PyVal → Nat) :
    get_motor_setting dioState =
      if dioState (PyVal.n 6) = 0 then "single"
      else if dioState (PyVal.n 5) = 0 then "burst"
      else if dioState (PyVal.n 7) = 0 then "cont"
      else "auto" := rfl

/-- C4: with the controller reporting `'burst'`, `turn_around('fwd_to_back')`
executes exactly the two configured burst sequences in order —
`walk_bursts('fwd', 100)` then `walk_bursts('back', 55)` — and nothing
else; for every key not in the turn-sequence table it raises the
invalid-direction-change `AdvancedStepperMotorException` with an empty
trace, i.e. before issuing any burst. -/
theorem turn_around_fwd_to_back (dioState : PyVal → Nat)
    (hmode : get_motor_setting dioState = "burst") :
    turn_around dioState "fwd_to_back"
      = ((walk_bursts dioState "fwd" (.intVal 100)).1
          ++ (walk_bursts dioState "back" (.intVal 55)).1, none) ∧
    ∀ k, alookup TURN_AROUND_STEP_SEQUENCE k = none →
        turn_around dioState k
          = ([], some (.invalidDirChange k ["fwd_to_back", "back_to_fwd"])) := by
  have hfwd := @walk_bursts_ok dioState "fwd" [("bit0", 0), ("bit1", 0), ("bit2", 1)]
    rfl hmode 100
  have hback := @walk_bursts_ok dioState "back" [("bit0", 0), ("bit1", 1), ("bit2", 0)]
    rfl hmode 55
  constructor
  · show runTurnSeq dioState [("fwd", 100), ("back", 55)] = _
    rw [runTurnSeq_two hfwd hback, hfwd, hback]
  · intro k hk
    unfold turn_around check_direction_change
    rw [hk]
    rfl

/-- C4 witness: the burst-mode equation of `turn_around_fwd_to_back` at a
read-back with only the burst status line low. -/
theorem turn_around_fwd_to_back_witness :
    turn_around dioBurst "fwd_to_back"
      = ((walk_bursts dioBurst "fwd" (.intVal 100)).1
          ++ (walk_bursts dioBurst "back" (.intVal 55)).1, none) :=
  (turn_around_fwd_to_back dioBurst rfl).1

/-- C5: for every direction in the fixed seven-element set, `encode`
returns the 3-entry ordered bit mapping of the fixed table
(`encode('left') = bit0 1, bit1 0, bit2 1`); for every name outside the
set it fails with the invalid-direction error whose payload lists the
valid options. -/
theorem encode_direction_table :
    encode "left" = .ok [("bit0", 1), ("bit1", 0), ("bit2", 1)] ∧
    encode "right" = .ok [("bit0", 1), ("bit1", 1), ("bit2", 0)] ∧
    encode "back" = .ok [("bit0", 0), ("bit1", 1), ("bit2", 0)] ∧
    encode "down" = .ok [("bit0", 1), ("bit1", 0), ("bit2", 0)] ∧
    encode "fwd" = .ok [("bit0", 0), ("bit1", 0), ("bit2", 1)] ∧
    encode "up" = .ok [("bit0", 0), ("bit1", 1), ("bit2", 1)] ∧
    encode "stop" = .ok [("bit0", 1), ("bit1", 1), ("bit2", 1)] ∧
    ∀ direction, alookup mot_dir direction = none →
        encode direction = .error (.invalidDirection direction
          ["left", "right", "back", "down", "fwd", "up", "stop"]) := by
  refine ⟨rfl, rfl, rfl, rfl, rfl, rfl, rfl, ?_⟩
  intro direction h
  unfold encode check_motor_direction
  rw [h]
  rfl

/-- C5 witness: the invalid-direction branch of `encode_direction_table`
at the unknown name `'diag'`. -/
theorem encode_direction_table_witness :
    encode "diag" = .error (.invalidDirection "diag"
      ["left", "right", "back", "down", "fwd", "up", "stop"]) :=
  encode_direction_table.2.2.2.2.2.2.2 "diag" rfl

/-- C6: for every direction with a defined ratio and every integer step
count, `conv_one_step` returns the count multiplied by the fixed ratio,
truncated (not rounded) toward zero; in particular
`conv_one_step('fwd', 100) = int(100 * 450/205) = 219`; for a direction
with no defined ratio it raises the invalid-direction `ValueError`
listing the valid keys. -/
theorem conv_one_step_ratios :
    (∀ conv_to r step_nr, alookup CONV_TO conv_to = some r →
        conv_one_step conv_to step_nr = .ok (ratTrunc (step_nr * r))) ∧
    conv_one_step "fwd" 100 = .ok 219 ∧
    ratTrunc (100 * (450/205 : ℚ)) = 219 ∧
    (∀ conv_to step_nr, alookup CONV_TO conv_to = none →
        conv_one_step conv_to step_nr
          = .error (.invalidConvTo conv_to ["left", "right", "fwd", "back"])) := by
  refine ⟨?_, ?_, ?_, ?_⟩
  · intro conv_to r step_nr h
    unfold conv_one_step
    rw [h]
  · show Except.ok (ratTrunc (100 * RATIO_BACK_TO_FWD)) = Except.ok 219
    norm_num [ratTrunc, RATIO_BACK_TO_FWD]
  · norm_num [ratTrunc]
  · intro conv_to step_nr h
    unfold conv_one_step
    rw [h]
    rfl

/-- C6 witness: the defined-ratio equation at `'left'` and the
missing-ratio error at `'up'` (which has no entry in `CONV_TO`). -/
theorem conv_one_step_ratios_witness :
    conv_one_step "left" 100 = .ok (ratTrunc (100 * RATIO_RIGHT_TO_LEFT)) ∧
    conv_one_step "up" 7
      = .error (.invalidConvTo "up" ["left", "right", "fwd", "back"]) :=
  ⟨conv_one_step_ratios.1 "left" RATIO_RIGHT_TO_LEFT 100 rfl,
   conv_one_step_ratios.2.2.2 "up" 7 rfl⟩

/-- C7 counterexample: the claim says every negative step-count input
raises the invalid-step-count error, but a negative Python `int` passes
`int()` unchanged and `range` of a negative number is empty: with the
controller in the matching mode both `walk_steps` and `walk_bursts`
return normally, issuing zero pulses and raising nothing. -/
theorem negative_step_count_accepted :
    walk_steps dioSingle "fwd" (.intVal (-1)) (1/100) = ([], none) ∧
    walk_bursts dioBurst "back" (.intVal (-5)) = ([], none) :=
  ⟨rfl, rfl⟩

/-- C7 (amended): `walk_steps` and `walk_bursts` fail with the
invalid-step-count error exactly when Python `int()` fails on the given
step count (a non-numeric string); a negative integer is accepted — after
the mode check it yields zero pulse sequences instead of an error. -/
theorem step_count_gate (dioState : PyVal → Nat) (direction : String)
    (inp : StepInput) (d : ℚ) :
    ((walk_steps dioState direction inp d).2 = some (.invalidStepCount inp)
        ↔ pyInt inp = .error ()) ∧
    ((walk_bursts dioState direction inp).2 = some (.invalidStepCount inp)
        ↔ pyInt inp = .error ()) ∧
    (∀ i : Int, i < 0 → get_motor_setting dioState = "single" →
        walk_steps dioState direction (.intVal i) d = ([], none)) := by
  refine ⟨?_, ?_, ?_⟩
  · cases hi : pyInt inp with
    | error u =>
      cases u
      rw [walk_steps_conv_err hi]
      simp [hi]
    | ok i =>
      rw [walk_steps_conv_ok hi]
      constructor
      · intro hbad
        exfalso
        by_cases hm : get_motor_setting dioState ≠ "single"
        · rw [if_pos hm] at hbad; simp at hbad
        · rw [if_neg hm] at hbad
          rcases walkLoop_snd direction d i.toNat with h | h <;> simp [h] at hbad
      · intro hbad
        simp at hbad
  · cases hi : pyInt inp with
    | error u =>
      cases u
      rw [walk_bursts_conv_err hi]
      simp [hi]
    | ok i =>
      rw [walk_bursts_conv_ok hi]
      constructor
      · intro hbad
        exfalso
        by_cases hm : get_motor_setting dioState ≠ "burst"
        · rw [if_pos hm] at hbad; simp at hbad
        · rw [if_neg hm] at hbad
          rcases walkLoop_snd direction BURST_PULSE_DURATION i.toNat with h | h <;>
            simp [h] at hbad
      · intro hbad
        simp at hbad
  · intro i hi hmode
    rw [@walk_steps_conv_ok (.intVal i) i rfl dioState direction d]
    simp [hmode, Int.toNat_of_nonpos hi.le, walkLoop]

/-- C7 witness: the invalid-step-count iff of `step_count_gate` applied
at a non-numeric string input, and the negative-count branch at -1. -/
theorem step_count_gate_witness :
    (walk_steps dioSingle "fwd" (.strBad "abc") (1/100)).2
        = some (.invalidStepCount (.strBad "abc")) ∧
    walk_steps dioSingle "fwd" (.intVal (-1)) (1/100) = ([], none) :=
  ⟨((step_count_gate dioSingle "fwd" (.strBad "abc") (1/100)).1).mpr rfl,
   (step_count_gate dioSingle "fwd" (.intVal (-1)) (1/100)).2.2 (-1)
     (by norm_num) rfl⟩

/-- C8 counterexample: the claim requires the wiring-mismatch error
message to enumerate the unresolved chain, but the `KeyError` raised by
`compress_dict` carries one fixed string — two chains broken at entirely
different values (`'A' -> 'X'` vs `'B' -> 'Y'`) produce the identical
message, which therefore enumerates nothing. -/
theorem compress_dict_fixed_message :
    compress_dict [PyObj.dict [(.s "A", .s "X")], PyObj.dict []]
      = .error (.keyErrorMsg chainMsg) ∧
    compress_dict [PyObj.dict [(.s "B", .s "Y")], PyObj.dict []]
      = .error (.keyErrorMsg chainMsg) ∧
    chainMsg = "Values and keys of subsequent dictionaries are not consistent." :=
  ⟨rfl, rfl, rfl⟩

/-- C8 (amended): `compress_dict` fails with `ValueError` naming the first
offending argument if any element of the chain is not a dict, and
otherwise (on a nonempty chain) either succeeds or fails with the
wiring-mismatch `KeyError` carrying the fixed diagnostic message (which
does not enumerate the unresolved chain); it is a pure function of its
inputs (it is total and emits no events in this model). -/
theorem compress_dict_error_kinds (args : List PyObj) :
    (∀ a, args.find? (fun x => ! isDict x) = some a →
        compress_dict args = .error (.valueErrorNotDict a)) ∧
    ((∀ a ∈ args, isDict a = true) → args ≠ [] →
        (∃ m, compress_dict args = .ok m) ∨
          compress_dict args = .error (.keyErrorMsg chainMsg)) := by
  constructor
  · intro a ha
    unfold compress_dict
    rw [ha]
  · intro hall hne
    cases args with
    | nil => exact absurd rfl hne
    | cons a0 rest =>
      have hfind : (a0 :: rest).find? (fun x => ! isDict x) = none := by
        apply List.find?_eq_none.mpr
        intro x hx
        simp [hall x hx]
      unfold compress_dict
      rw [hfind]
      exact compressLoop_kinds (rest.map asDict) (asDict a0)

/-- C8 witness: the `ValueError` branch of `compress_dict_error_kinds` at
a chain whose first element is the integer 3 rather than a dict, and the
ok-or-KeyError alternative at a broken two-dict chain. -/
theorem compress_dict_error_kinds_witness :
    compress_dict [PyObj.val (PyVal.n 3), PyObj.dict []]
      = .error (.valueErrorNotDict (PyObj.val (PyVal.n 3))) ∧
    ((∃ m, compress_dict [PyObj.dict [(.s "A", .s "X")], PyObj.dict []] = .ok m) ∨
      compress_dict [PyObj.dict [(.s "A", .s "X")], PyObj.dict []]
        = .error (.keyErrorMsg chainMsg)) :=
  ⟨(compress_dict_error_kinds [PyObj.val (PyVal.n 3), PyObj.dict []]).1
      (PyObj.val (PyVal.n 3)) rfl,
   (compress_dict_error_kinds [PyObj.dict [(.s "A", .s "X")], PyObj.dict []]).2
      (by decide) (by decide)⟩

/-- C9: for every direction name not in the motor-direction table and
every duration, `walk` first issues the batched `'stop'` write and only
then raises the invalid-direction error from the second `_walk` call: the
trace at the moment of failure already contains the stop write, so the
DAQ output state has been changed to `'stop'` — `walk` is not atomic on
an invalid-direction error. -/
theorem walk_not_atomic (direction : String) (d : ℚ)
    (h : alookup mot_dir direction = none) :
    walk direction d
      = ([Ev.batchWrite stopCmds],
         some (.invalidDirection direction
           ["left", "right", "back", "down", "fwd", "up", "stop"])) := by
  have := walk_err h d
  simpa [motorKeys] using this

/-- C9 witness: `walk` at the unknown direction `'sideways'`. -/
theorem walk_not_atomic_witness :
    walk "sideways" (1/10)
      = ([Ev.batchWrite stopCmds],
         some (.invalidDirection "sideways"
           ["left", "right", "back", "down", "fwd", "up", "stop"])) :=
  walk_not_atomic "sideways" (1/10) rfl

/-- C10: for each of the valid motor directions `'up'`, `'down'` and
`'stop'`, `turn_around_from` passes the motor-direction validity check
(`check_motor_direction` returns no error) but then fails with a plain
Python `KeyError` from the unguarded `TURN_AROUND_FROM[direction]`
lookup — an error type outside the module's documented taxonomy — with an
empty trace, i.e. no burst issued. -/
theorem turn_around_from_plain_keyerror (dioState : PyVal → Nat) :
    turn_around_from dioState "up" = ([], some (.pyKeyError "up")) ∧
    turn_around_from dioState "down" = ([], some (.pyKeyError "down")) ∧
    turn_around_from dioState "stop" = ([], some (.pyKeyError "stop")) ∧
    check_motor_direction "up" = none ∧
    check_motor_direction "down" = none ∧
    check_motor_direction "stop" = none ∧
    alookup TURN_AROUND_FROM "up" = none ∧
    alookup TURN_AROUND_FROM "down" = none ∧
    alookup TURN_AROUND_FROM "stop" = none :=
  ⟨rfl, rfl, rfl, rfl, rfl, rfl, rfl, rfl, rfl⟩

end StepperMotor
